import Mathlib

/-!
# rackorbit/log : encoder configuration resolution and one-time global registration

A shallow embedding of the Go packages `log` (log.go, config.go, level.go, cli.go) and
`log/encoder` (encoder.go, console.go, json.go).

Conventions of the embedding.
* A Go pointer or interface value that may be nil is an `Option`.
* A Go function value chosen among a fixed set of library functions and closures is a
  constructor of an inductive type naming that function (the closures carry what they capture).
* A method that mutates its receiver returns the updated receiver next to its Go result.
* Package-level variables are threaded explicitly as a `Global` record.
* A run-time panic (nil dereference) is the `panics` case of `Outcome`.
* What `go.uber.org/zap` and the Go standard library do is taken from their documented
  behaviour; each such definition says so.
-/

set_option linter.dupNamespace false

/-! ## go.uber.org/zap/zapcore : the parts the repository touches -/

namespace zapcore

/-- The Go type `zapcore.Level` (an int8): Debug = -1, Info = 0, ..., Fatal = 5. -/
abbrev Level := Int

def DebugLevel : Level := -1
def InfoLevel : Level := 0
def WarnLevel : Level := 1
def ErrorLevel : Level := 2
def DPanicLevel : Level := 3
def PanicLevel : Level := 4
def FatalLevel : Level := 5

/-- The values a `zapcore.TimeEncoder` variable takes in encoder.go: three epoch encoders and
the ISO-8601 encoder of zapcore, and the two closures of `ZapcoreEncoderConfig`:
`format l` is `func(t, enc) { enc.AppendString(t.Format(l)) }` (encoder.go 65-67) and
`utcFormat l` is `func(ts, enc) { enc.AppendString(ts.UTC().Format(l)) }` (encoder.go 92-94). -/
inductive TimeEncoder
  | format (layout : String)
  | EpochTimeEncoder
  | EpochMillisTimeEncoder
  | EpochNanosTimeEncoder
  | ISO8601TimeEncoder
  | utcFormat (layout : String)
  deriving DecidableEq, Repr

/-- The `zapcore.DurationEncoder` functions named in encoder.go. -/
inductive DurationEncoder
  | SecondsDurationEncoder
  | NanosDurationEncoder
  | StringDurationEncoder
  deriving DecidableEq, Repr

/-- The `zapcore.LevelEncoder` functions named in encoder.go. -/
inductive LevelEncoder
  | LowercaseLevelEncoder
  | CapitalLevelEncoder
  | CapitalColorLevelEncoder
  deriving DecidableEq, Repr

/-- The `zapcore.CallerEncoder` functions named in encoder.go. -/
inductive CallerEncoder
  | ShortCallerEncoder
  | FullCallerEncoder
  deriving DecidableEq, Repr

/-- The fields of `zapcore.EncoderConfig` that encoder.go reads or writes. A nil function value
is `none`. -/
structure EncoderConfig where
  MessageKey : String
  LevelKey : String
  TimeKey : String
  NameKey : String
  CallerKey : String
  StacktraceKey : String
  LineEnding : String
  EncodeLevel : Option LevelEncoder
  EncodeTime : Option TimeEncoder
  EncodeDuration : Option DurationEncoder
  EncodeCaller : Option CallerEncoder
  deriving DecidableEq, Repr

/-- The serializers the encoder variants construct: `zapcore.NewConsoleEncoder cfg`,
`zapcore.NewJSONEncoder cfg`, and the logfmt serializer of the third variant. Each is
determined by the resolved configuration it was built from. -/
inductive Encoder
  | NewConsoleEncoder (cfg : EncoderConfig)
  | NewJSONEncoder (cfg : EncoderConfig)
  | NewLogfmtEncoder (cfg : EncoderConfig)
  deriving DecidableEq, Repr

end zapcore

namespace zap

/-- The library function `zap.NewProductionEncoderConfig()`: zap's production defaults. -/
def NewProductionEncoderConfig : zapcore.EncoderConfig where
  MessageKey := "msg"
  LevelKey := "level"
  TimeKey := "ts"
  NameKey := "logger"
  CallerKey := "caller"
  StacktraceKey := "stacktrace"
  LineEnding := "\n"
  EncodeLevel := some .LowercaseLevelEncoder
  EncodeTime := some .EpochTimeEncoder
  EncodeDuration := some .SecondsDurationEncoder
  EncodeCaller := some .ShortCallerEncoder

end zap

/-! ## Go standard library `time` -/

namespace time

/-- The constant `time.RFC3339`. -/
def RFC3339 : String := "2006-01-02T15:04:05Z07:00"

/-- The constant `time.RFC3339Nano`. -/
def RFC3339Nano : String := "2006-01-02T15:04:05.999999999Z07:00"

end time

/-! ## package encoder (encoder/encoder.go, encoder/console.go, encoder/json.go) -/

namespace encoder

/-- The struct `encoder.Config` (encoder.go 18-30); a `*string` field is an `Option String`. -/
structure Config where
  MessageKey : Option String
  LevelKey : Option String
  TimeKey : Option String
  NameKey : Option String
  CallerKey : Option String
  StacktraceKey : Option String
  LineEnding : Option String
  TimeFormat : String
  DurationFormat : String
  LevelFormat : String
  CallerFormat : String
  deriving DecidableEq, Repr

/-- The zero value `new(Config)`: nil pointers and empty strings. -/
def Config.zero : Config where
  MessageKey := none
  LevelKey := none
  TimeKey := none
  NameKey := none
  CallerKey := none
  StacktraceKey := none
  LineEnding := none
  TimeFormat := ""
  DurationFormat := ""
  LevelFormat := ""
  CallerFormat := ""

/-- The inner switch of encoder.go 77-91: the layout used by the default arm. -/
def timeLayout (timeFormat : String) : String :=
  if timeFormat = "rfc3339" then time.RFC3339
  else if timeFormat = "rfc3339_nano" then time.RFC3339Nano
  else if timeFormat = "wall" then "2006/01/02 15:04:05"
  else if timeFormat = "wall_milli" then "2006/01/02 15:04:05.000"
  else if timeFormat = "wall_nano" then "2006/01/02 15:04:05.000000000"
  else if timeFormat = "common_log" then "02/Jan/2006:15:04:05 -0700"
  else timeFormat

/-- The switch on `c.TimeFormat` (encoder.go 62-95). -/
def timeFormatter (timeFormat : String) : Option zapcore.TimeEncoder :=
  if timeFormat = "" then some (.format "15:04:05")
  else if timeFormat = "unix_seconds_float" then some .EpochTimeEncoder
  else if timeFormat = "unix_milli_float" then some .EpochMillisTimeEncoder
  else if timeFormat = "unix_nano" then some .EpochNanosTimeEncoder
  else if timeFormat = "iso8601" then some .ISO8601TimeEncoder
  else some (.utcFormat (timeLayout timeFormat))

/-- The switch on `c.DurationFormat` (encoder.go 98-106); it has no default arm, so the
variable keeps its nil zero value on any other string. -/
def durFormatter (durationFormat : String) : Option zapcore.DurationEncoder :=
  if durationFormat = "seconds" then some .SecondsDurationEncoder
  else if durationFormat = "nano" then some .NanosDurationEncoder
  else if durationFormat = "" ∨ durationFormat = "string" then some .StringDurationEncoder
  else none

/-- The switch on `c.LevelFormat` (encoder.go 109-117); no default arm. -/
def levelFormatter (levelFormat : String) : Option zapcore.LevelEncoder :=
  if levelFormat = "lower" then some .LowercaseLevelEncoder
  else if levelFormat = "upper" then some .CapitalLevelEncoder
  else if levelFormat = "" ∨ levelFormat = "color" then some .CapitalColorLevelEncoder
  else none

/-- The switch on `c.CallerFormat` (encoder.go 120-126); no default arm and no arm for the
empty string. -/
def callerFormatter (callerFormat : String) : Option zapcore.CallerEncoder :=
  if callerFormat = "short" then some .ShortCallerEncoder
  else if callerFormat = "full" then some .FullCallerEncoder
  else none

/-- The method `(*Config).ZapcoreEncoderConfig` (encoder.go 34-130). The receiver pointer may be
nil, in which case `new(Config)` is used. The function has no error result. -/
def Config.ZapcoreEncoderConfig (c : Option Config) : zapcore.EncoderConfig :=
  let cfg := zap.NewProductionEncoderConfig
  let c : Config := match c with
    | none => Config.zero
    | some c => c
  let cfg := match c.MessageKey with
    | some v => { cfg with MessageKey := v }
    | none => cfg
  let cfg := match c.LevelKey with
    | some v => { cfg with LevelKey := v }
    | none => cfg
  let cfg := match c.TimeKey with
    | some v => { cfg with TimeKey := v }
    | none => cfg
  let cfg := match c.NameKey with
    | some v => { cfg with NameKey := v }
    | none => cfg
  let cfg := match c.CallerKey with
    | some v => { cfg with CallerKey := v }
    | none => cfg
  let cfg := match c.StacktraceKey with
    | some v => { cfg with StacktraceKey := v }
    | none => cfg
  let cfg := match c.LineEnding with
    | some v => { cfg with LineEnding := v }
    | none => cfg
  let cfg := { cfg with EncodeTime := timeFormatter c.TimeFormat }
  let cfg := { cfg with EncodeDuration := durFormatter c.DurationFormat }
  let cfg := { cfg with EncodeLevel := levelFormatter c.LevelFormat }
  let cfg := { cfg with EncodeCaller := callerFormatter c.CallerFormat }
  cfg

/-- The struct `encoder.Console` (console.go 9-12): the embedded `Config` and the embedded
`zapcore.Encoder` interface value (nil until provisioned). -/
structure Console where
  Config : Config
  Encoder : Option zapcore.Encoder
  deriving DecidableEq, Repr

/-- The struct `encoder.JSON` (json.go 11-14). -/
structure JSON where
  Config : Config
  Encoder : Option zapcore.Encoder
  deriving DecidableEq, Repr

/-- The method `(*Console).Provision` (console.go 16-21): the updated receiver and the returned
error (nil is `none`). -/
def Console.Provision (e : Console) : Console × Option String :=
  let e : Console := { e with Config := { e.Config with CallerFormat := "short" } }
  let e : Console :=
    { e with Encoder := some (.NewConsoleEncoder (Config.ZapcoreEncoderConfig (some e.Config))) }
  (e, none)

/-- The method `(*JSON).Provision` (json.go 18-23). -/
def JSON.Provision (e : JSON) : JSON × Option String :=
  let e : JSON := { e with Config := { e.Config with CallerFormat := "full" } }
  let e : JSON :=
    { e with Encoder := some (.NewJSONEncoder (Config.ZapcoreEncoderConfig (some e.Config))) }
  (e, none)

end encoder

/-! ## Go standard library `time`: time values and the one layout rendered here -/

namespace time

/-- A Go `time.Time`: the instant as seconds since the Unix epoch and nanoseconds within the
second (below 10^9), and the offset east of UTC, in seconds, that the location of the value has
at that instant. -/
structure Time where
  sec : Int
  nsec : Nat
  offset : Int
  deriving DecidableEq, Repr

/-- The method `Time.UTC`: the same instant with the location set to UTC. -/
def Time.UTC (t : Time) : Time := { t with offset := 0 }

/-- The helper `appendInt` of package time: the decimal digits of `x`, zero-padded to `width`,
after a minus sign when `x` is negative. -/
def appendInt (x : Int) (width : Nat) : String :=
  let ds := Nat.toDigits 10 x.natAbs
  let body := String.mk (List.replicate (width - ds.length) (Char.ofNat 48) ++ ds)
  if x < 0 then "-" ++ body else body

/-- The proleptic Gregorian date (year, month, day) of a day count since 1970-01-01. -/
def civil (days : Int) : Int × Int × Int :=
  let z := days + 719468
  let era := Int.fdiv z 146097
  let doe := z - era * 146097
  let yoe := Int.fdiv (doe - Int.fdiv doe 1460 + Int.fdiv doe 36524 - Int.fdiv doe 146096) 365
  let doy := doe - (365 * yoe + Int.fdiv yoe 4 - Int.fdiv yoe 100)
  let mp := Int.fdiv (5 * doy + 2) 153
  let d := doy - Int.fdiv (153 * mp + 2) 5 + 1
  let m := if mp < 10 then mp + 3 else mp - 9
  let y := yoe + era * 400
  (if m ≤ 2 then y + 1 else y, m, d)

/-- The zone element `Z0700` of a layout: `Z` at offset zero, otherwise sign, hours and minutes
of the offset (Go truncates the offset to minutes toward zero). -/
def formatZ0700 (offset : Int) : String :=
  if offset = 0 then "Z"
  else
    let zone := Int.tdiv offset 60
    let sign := if zone < 0 then "-" else "+"
    let zone := if zone < 0 then -zone else zone
    sign ++ appendInt (Int.tdiv zone 60) 2 ++ appendInt (Int.tmod zone 60) 2

/-- The method call `t.Format("2006-01-02T15:04:05.000Z0700")`: the wall clock of `t` in its
own location, with the fraction of a second cut to three digits, and the zone. -/
def Time.FormatISO8601 (t : Time) : String :=
  let abs := t.sec + t.offset
  let ymd := civil (Int.fdiv abs 86400)
  let s := Int.fmod abs 86400
  appendInt ymd.1 4 ++ "-" ++ appendInt ymd.2.1 2 ++ "-" ++ appendInt ymd.2.2 2 ++ "T"
    ++ appendInt (Int.fdiv s 3600) 2 ++ ":" ++ appendInt (Int.fmod (Int.fdiv s 60) 60) 2 ++ ":"
    ++ appendInt (Int.fmod s 60) 2 ++ "." ++ appendInt (Int.ofNat (t.nsec / 1000000)) 3
    ++ formatZ0700 t.offset

end time

namespace zapcore

/-- The library function `zapcore.ISO8601TimeEncoder`, as the string it appends: zap documents
it as the ISO8601 format with millisecond precision and implements it by formatting the time
value as given with the layout `2006-01-02T15:04:05.000Z0700`; it does not convert to UTC. -/
def ISO8601TimeEncoder (t : time.Time) : String := t.FormatISO8601

/-- What a call of a time encoder hands to the primitive array encoder: `AppendString` of a
string rendered here, `AppendString(t.Format(layout))` for a layout that is not rendered here,
or the number appended by one of the three epoch encoders for a time value. -/
inductive Appended
  | String (s : String)
  | Format (t : time.Time) (layout : String)
  | EpochSeconds (t : time.Time)
  | EpochMillis (t : time.Time)
  | EpochNanos (t : time.Time)
  deriving DecidableEq, Repr

/-- Calling a time encoder on a time value: the closures of encoder.go 65-67 and 92-94 format
the value as given and its UTC conversion respectively, and zap's ISO-8601 encoder appends the
string of `zapcore.ISO8601TimeEncoder`. -/
def TimeEncoder.encode : TimeEncoder → time.Time → Appended
  | .format layout, t => .Format t layout
  | .EpochTimeEncoder, t => .EpochSeconds t
  | .EpochMillisTimeEncoder, t => .EpochMillis t
  | .EpochNanosTimeEncoder, t => .EpochNanos t
  | .ISO8601TimeEncoder, t => .String (zapcore.ISO8601TimeEncoder t)
  | .utcFormat layout, ts => .Format ts.UTC layout

end zapcore

/-! ## Outcomes, errors and interface values -/

/-- How a call ends: it returns its results, or it panics (nil pointer dereference). -/
inductive Outcome (α : Type)
  | returns (v : α)
  | panics
  deriving DecidableEq, Repr

namespace errors

/-- The function `errors.Wrap(err, message)` of github.com/pkg/errors, on error texts: the
message, a colon and the text of the wrapped error. -/
def Wrap (err : String) (message : String) : String := message ++ ": " ++ err

end errors

namespace fmt

/-- The call `fmt.Errorf(pre + "\"%s\"", v)`: the prefix followed by `v` in double quotes. -/
def Errorf (pre : String) (v : String) : String := pre ++ "\"" ++ v ++ "\""

end fmt

namespace encoder

/-- Modelled from the spec: the struct `encoder.Logfmt` of encoder/logfmt.go, which cli.go
constructs and which is not among the sources; like its two siblings it owns one `Config` and
one serializer. -/
structure Logfmt where
  Config : Config
  Encoder : Option zapcore.Encoder
  deriving DecidableEq, Repr

/-- Modelled from the spec: the method `(*Logfmt).Provision` of encoder/logfmt.go. The spec has
"Logfmt → no override, plain resolver defaults", then the resolver is invoked and the
serializer constructed, and "current variants cannot fail here". -/
def Logfmt.Provision (e : Logfmt) : Logfmt × Option String :=
  let e : Logfmt :=
    { e with Encoder := some (.NewLogfmtEncoder (Config.ZapcoreEncoderConfig (some e.Config))) }
  (e, none)

/-- A non-nil value of the interface `encoder.Encoder` (encoder.go 12-15): a pointer to one of
the three variants. -/
inductive Encoder
  | Console (e : Console)
  | JSON (e : JSON)
  | Logfmt (e : Logfmt)
  deriving DecidableEq, Repr

/-- The interface method `Provision`, dispatched on the dynamic type. -/
def Encoder.Provision : Encoder → Encoder × Option String
  | .Console e => (.Console (Console.Provision e).1, (Console.Provision e).2)
  | .JSON e => (.JSON (JSON.Provision e).1, (JSON.Provision e).2)
  | .Logfmt e => (.Logfmt (Logfmt.Provision e).1, (Logfmt.Provision e).2)

end encoder

namespace golang

/-- A non-nil value of the interface `zapcore.Encoder` as stored in `log.Config.Encoder`: one of
the encoder variants of this repository, or any other implementation. -/
inductive EncoderValue
  | variant (e : encoder.Encoder)
  | other (id : Nat)
  deriving DecidableEq, Repr

/-- A non-nil value of the interface `io.Writer`: `os.Stderr`, or any other writer. -/
inductive Writer
  | Stderr
  | other (id : Nat)
  deriving DecidableEq, Repr

end golang

/-! ## go.uber.org/zap : cores, loggers and options -/

namespace zapcore

/-- A structured field `zap.Field`, as key and rendered value. -/
structure Field where
  Key : String
  Value : String
  deriving DecidableEq, Repr

/-- The core built by `zapcore.NewCore(enc, ws, enab)`: encoder, write syncer and level
threshold, with the fields accumulated by `Core.With`. -/
structure Core where
  enc : Option golang.EncoderValue
  out : Option golang.Writer
  enab : Level
  fields : List Field
  deriving DecidableEq, Repr

/-- The library function `zapcore.NewCore`; `ws` is `zapcore.AddSync` of the writer. -/
def NewCore (enc : Option golang.EncoderValue) (ws : Option golang.Writer) (enab : Level) : Core :=
  { enc := enc, out := ws, enab := enab, fields := [] }

/-- The method `Core.With(fields)` of the core: a copy with the fields added after the ones
already present. -/
def Core.With (c : Core) (fields : List Field) : Core :=
  { c with fields := c.fields ++ fields }

end zapcore

namespace zap

/-- The part of a `zap.Logger` that the options used in log.go act on. -/
structure Logger where
  core : zapcore.Core
  addCaller : Bool
  addStack : zapcore.Level
  callerSkip : Int
  deriving DecidableEq, Repr

/-- The values of the Go type `zap.Option` used in log.go. -/
inductive Opt
  | AddCaller
  | AddCallerSkip (skip : Int)
  | AddStacktrace (lvl : zapcore.Level)
  deriving DecidableEq, Repr

/-- What applying an option does to a logger: `AddCaller` switches caller annotation on,
`AddCallerSkip` adds to the number of skipped frames, `AddStacktrace` sets the level from which
stack traces are recorded. -/
def Opt.apply : Opt → Logger → Logger
  | .AddCaller, log => { log with addCaller := true }
  | .AddCallerSkip skip, log => { log with callerSkip := log.callerSkip + skip }
  | .AddStacktrace lvl, log => { log with addStack := lvl }

/-- The method `Logger.WithOptions`: a clone with the options applied in order. -/
def Logger.WithOptions (log : Logger) (opts : List Opt) : Logger :=
  opts.foldl (fun c opt => opt.apply c) log

/-- The library function `zap.New` on a non-nil core: caller annotation off, no skipped frames,
stack traces above every level, then the options. -/
def New (core : zapcore.Core) (options : List Opt) : Logger :=
  Logger.WithOptions
    { core := core, addCaller := false, addStack := zapcore.FatalLevel + 1, callerSkip := 0 }
    options

/-- The method `Logger.With`: the logger itself when no field is given, else a clone whose core
has the fields added. -/
def Logger.With (log : Logger) (fields : List zapcore.Field) : Logger :=
  if fields.length = 0 then log
  else { log with core := log.core.With fields }

end zap

/-! ## package log (log.go, config.go, level.go, cli.go) -/

namespace log

/-- The type alias `Level = zapcore.Level` (level.go 8). -/
abbrev Level := zapcore.Level

def DebugLevel : Level := zapcore.DebugLevel
def InfoLevel : Level := zapcore.InfoLevel
def WarnLevel : Level := zapcore.WarnLevel
def ErrorLevel : Level := zapcore.ErrorLevel
def PanicLevel : Level := zapcore.PanicLevel
def FatalLevel : Level := zapcore.FatalLevel

/-- The map `Levels` (level.go 29-36), as its key-value pairs. -/
def Levels : List (String × Level) :=
  [("debug", DebugLevel), ("info", InfoLevel), ("warn", WarnLevel),
   ("error", ErrorLevel), ("panic", PanicLevel), ("fatal", FatalLevel)]

/-- The struct `log.Config` (config.go 10-17); the two interface fields may be nil. -/
structure Config where
  Encoder : Option golang.EncoderValue
  Level : Level
  Output : Option golang.Writer
  deriving DecidableEq, Repr

/-- The struct `log.Logger` (log.go 39-41); `config` is a pointer. -/
structure Logger where
  config : Option Config
  deriving DecidableEq, Repr

/-- The function `New` (log.go 44-55): the returned pointer and error. Reading a field of a nil
`*Config` panics. -/
def New (c : Option Config) : Outcome (Option Logger × Option String) :=
  let l : Logger := { config := c }
  match l.config with
  | none => .panics
  | some cfg =>
    if cfg.Encoder = none then .returns (none, some "log: no encoder configured")
    else if cfg.Output = none then .returns (none, some "log: no output configured")
    else .returns (some l, none)

/-- The method `(*Logger).Logger` (log.go 58-72): the returned zap logger and error. A nil
receiver or a nil `config` pointer panics on the first field read. -/
def Logger.Logger (l : Option Logger) : Outcome (Option zap.Logger × Option String) :=
  match l with
  | none => .panics
  | some l =>
    match l.config with
    | none => .panics
    | some config =>
      .returns
        (some (zap.New (zapcore.NewCore config.Encoder config.Output config.Level)
          [.AddCaller, .AddCallerSkip 1, .AddStacktrace zapcore.PanicLevel]), none)

/-- The package-level variables of log.go 13-17 that `Register` acts on: whether `_once` has
run its function, the pointer `_logger`, and the logger that `zap.RedirectStdLog` last directed
the standard library log output to. The mutex `_mx` only serialises callers. -/
structure Global where
  _once : Bool
  _logger : Option zap.Logger
  stdLog : Option zap.Logger
  deriving DecidableEq, Repr

/-- The state at process start. -/
def Global.init : Global := { _once := false, _logger := none, stdLog := none }

/-- The function `Register` (log.go 22-36): the returned error and the global state after the
call. -/
def Register (l : Option Logger) (g : Global) : Outcome (Option String) × Global :=
  match Logger.Logger l with
  | .panics => (.panics, g)
  | .returns (_, some err) => (.returns (some (errors.Wrap err "log: failed to get zap logger")), g)
  | .returns (p, none) =>
    let g := if g._once then g else { _once := true, _logger := p, stdLog := p }
    (.returns none, g)

/-- The function `With` (log.go 146-148): the child logger and the global state after the call. A
nil `_logger` panics. -/
def With (fields : List zapcore.Field) (g : Global) : Outcome zap.Logger × Global :=
  match g._logger with
  | none => (.panics, g)
  | some logger => (.returns ((logger.WithOptions [.AddCallerSkip (-1)]).With fields), g)

/-- The struct `Flags` (cli.go 13-16). -/
structure Flags where
  Encoder : String
  Level : String
  deriving DecidableEq, Repr

/-- The first result of `RegisterFromFlags`: nil, or the function `Sync`. -/
inductive Cleanup
  | Sync
  deriving DecidableEq, Repr

/-- The switch on `f.Encoder` (cli.go 25-35): the freshly allocated variant, or nothing in the
default arm. -/
def newEncoder (name : String) : Option encoder.Encoder :=
  if name = "console" then some (.Console { Config := encoder.Config.zero, Encoder := none })
  else if name = "json" then some (.JSON { Config := encoder.Config.zero, Encoder := none })
  else if name = "logfmt" then some (.Logfmt { Config := encoder.Config.zero, Encoder := none })
  else none

/-- A run of `RegisterFromFlags`: how it ended, the values its local variables `e` and `l` hold
at that point (nil when never assigned), the argument of each call to `Register`, and the global
state. -/
structure FlagsRun where
  result : Outcome (Option Cleanup × Option String)
  e : Option encoder.Encoder
  l : Option Logger
  registered : List (Option Logger)
  global : Global
  deriving DecidableEq, Repr

/-- The function `RegisterFromFlags` (cli.go 19-53). -/
def RegisterFromFlags (f : Flags) (g : Global) : FlagsRun :=
  match Levels.lookup f.Level with
  | none =>
    { result := .returns (none, some (fmt.Errorf "log: unknown log level: " f.Level)),
      e := none, l := none, registered := [], global := g }
  | some level =>
    match newEncoder f.Encoder with
    | none =>
      { result := .returns (none, some (fmt.Errorf "log: unknown log encoder: " f.Encoder)),
        e := none, l := none, registered := [], global := g }
    | some e =>
      match e.Provision with
      | (e, some err) =>
        { result := .returns (none, some (errors.Wrap err "log: failed to provision encoder")),
          e := some e, l := none, registered := [], global := g }
      | (e, none) =>
        match New (some { Encoder := some (.variant e), Level := level, Output := some .Stderr }) with
        | .panics => { result := .panics, e := some e, l := none, registered := [], global := g }
        | .returns (l, some err) =>
          { result := .returns (none, some (errors.Wrap err "log: failed to configure logger")),
            e := some e, l := l, registered := [], global := g }
        | .returns (l, none) =>
          match Register l g with
          | (.panics, g) =>
            { result := .panics, e := some e, l := l, registered := [l], global := g }
          | (.returns (some err), g) =>
            { result := .returns (none, some (errors.Wrap err "log: failed to register logger")),
              e := some e, l := l, registered := [l], global := g }
          | (.returns none, g) =>
            { result := .returns (some .Sync, none),
              e := some e, l := l, registered := [l], global := g }

/-- A sequence of `Register` calls from a given state: for each call in order, what it returned
and the global state right after it. -/
def registerAll : List (Option Logger) → Global → List (Outcome (Option String) × Global)
  | [], _ => []
  | l :: ls, g => Register l g :: registerAll ls (Register l g).2

end log

/-! ## Resolution of the encoder configuration -/

namespace encoder

/-- The resolved configuration written out field by field. -/
theorem ZapcoreEncoderConfig_some (c : Config) :
    Config.ZapcoreEncoderConfig (some c) =
      { MessageKey := c.MessageKey.getD "msg"
        LevelKey := c.LevelKey.getD "level"
        TimeKey := c.TimeKey.getD "ts"
        NameKey := c.NameKey.getD "logger"
        CallerKey := c.CallerKey.getD "caller"
        StacktraceKey := c.StacktraceKey.getD "stacktrace"
        LineEnding := c.LineEnding.getD "\n"
        EncodeLevel := levelFormatter c.LevelFormat
        EncodeTime := timeFormatter c.TimeFormat
        EncodeDuration := durFormatter c.DurationFormat
        EncodeCaller := callerFormatter c.CallerFormat } := by
  obtain ⟨mk, lk, tk, nk, ck, sk, le, tf, df, lf, cf⟩ := c
  cases mk <;> cases lk <;> cases tk <;> cases nk <;> cases ck <;> cases sk <;> cases le <;> rfl

/-- A nil receiver resolves like the zero `Config`. -/
theorem ZapcoreEncoderConfig_none :
    Config.ZapcoreEncoderConfig none = Config.ZapcoreEncoderConfig (some Config.zero) := rfl

/-- The selectors of the receiver, a nil receiver standing for the zero `Config`. -/
theorem ZapcoreEncoderConfig_getD (c : Option Config) :
    Config.ZapcoreEncoderConfig c = Config.ZapcoreEncoderConfig (some (c.getD Config.zero)) := by
  cases c <;> rfl

/-- C3 as stated does not hold: the nil `Config` resolves to a nil `EncodeCaller`, an
unrecognised `DurationFormat` to a nil `EncodeDuration`, and an unrecognised `LevelFormat` to a
nil `EncodeLevel`. -/
theorem ZapcoreEncoderConfig_formatter_nil :
    (Config.ZapcoreEncoderConfig none).EncodeCaller = none ∧
    (Config.ZapcoreEncoderConfig
      (some { Config.zero with DurationFormat := "millis" })).EncodeDuration = none ∧
    (Config.ZapcoreEncoderConfig
      (some { Config.zero with LevelFormat := "capital" })).EncodeLevel = none := by
  decide

/-- C3, amended: for every `Config` pointer, nil included, `ZapcoreEncoderConfig` returns a
configuration (it has no error result) whose `EncodeTime` is non-nil; `EncodeDuration` is
non-nil when `DurationFormat` is one of "", "string", "seconds", "nano"; `EncodeLevel` is
non-nil when `LevelFormat` is one of "", "color", "lower", "upper"; `EncodeCaller` is non-nil
when `CallerFormat` is "short" or "full". -/
theorem ZapcoreEncoderConfig_formatter_bound (c : Option Config) :
    (Config.ZapcoreEncoderConfig c).EncodeTime ≠ none ∧
    ((c.getD Config.zero).DurationFormat ∈ ["", "string", "seconds", "nano"] →
      (Config.ZapcoreEncoderConfig c).EncodeDuration ≠ none) ∧
    ((c.getD Config.zero).LevelFormat ∈ ["", "color", "lower", "upper"] →
      (Config.ZapcoreEncoderConfig c).EncodeLevel ≠ none) ∧
    ((c.getD Config.zero).CallerFormat ∈ ["short", "full"] →
      (Config.ZapcoreEncoderConfig c).EncodeCaller ≠ none) := by
  rw [ZapcoreEncoderConfig_getD c, ZapcoreEncoderConfig_some]
  refine ⟨?_, ?_, ?_, ?_⟩
  · simp only [timeFormatter]
    split_ifs <;> simp
  · intro h
    simp only [List.mem_cons, List.mem_singleton, List.not_mem_nil, or_false] at h
    rcases h with h | h | h | h <;> simp [h, durFormatter]
  · intro h
    simp only [List.mem_cons, List.mem_singleton, List.not_mem_nil, or_false] at h
    rcases h with h | h | h | h <;> simp [h, levelFormatter]
  · intro h
    simp only [List.mem_cons, List.mem_singleton, List.not_mem_nil, or_false] at h
    rcases h with h | h <;> simp [h, callerFormatter]

/-- C3, amended, at the console house style: every formatter is bound. -/
theorem ZapcoreEncoderConfig_formatter_bound_witness :
    (Config.ZapcoreEncoderConfig (some { Config.zero with CallerFormat := "short" })).EncodeTime
      ≠ none ∧
    (Config.ZapcoreEncoderConfig (some { Config.zero with CallerFormat := "short" })).EncodeDuration
      ≠ none ∧
    (Config.ZapcoreEncoderConfig (some { Config.zero with CallerFormat := "short" })).EncodeLevel
      ≠ none ∧
    (Config.ZapcoreEncoderConfig (some { Config.zero with CallerFormat := "short" })).EncodeCaller
      ≠ none :=
  have h := ZapcoreEncoderConfig_formatter_bound (some { Config.zero with CallerFormat := "short" })
  ⟨h.1, h.2.1 (by decide), h.2.2.1 (by decide), h.2.2.2 (by decide)⟩

/-- C4: each of the seven overridable names resolves to the pointed-to string when the override
is non-nil (the empty string included) and to the production default ("msg", "level", "ts",
"logger", "caller", "stacktrace", "\n") when it is nil, also for a nil `Config`; and replacing
one override changes only its own resolved field. -/
theorem ZapcoreEncoderConfig_keys (c : Config) (v : Option String) :
    ((Config.ZapcoreEncoderConfig (some c)).MessageKey = c.MessageKey.getD "msg" ∧
     (Config.ZapcoreEncoderConfig (some c)).LevelKey = c.LevelKey.getD "level" ∧
     (Config.ZapcoreEncoderConfig (some c)).TimeKey = c.TimeKey.getD "ts" ∧
     (Config.ZapcoreEncoderConfig (some c)).NameKey = c.NameKey.getD "logger" ∧
     (Config.ZapcoreEncoderConfig (some c)).CallerKey = c.CallerKey.getD "caller" ∧
     (Config.ZapcoreEncoderConfig (some c)).StacktraceKey = c.StacktraceKey.getD "stacktrace" ∧
     (Config.ZapcoreEncoderConfig (some c)).LineEnding = c.LineEnding.getD "\n") ∧
    ((Config.ZapcoreEncoderConfig none).MessageKey = "msg" ∧
     (Config.ZapcoreEncoderConfig none).LevelKey = "level" ∧
     (Config.ZapcoreEncoderConfig none).TimeKey = "ts" ∧
     (Config.ZapcoreEncoderConfig none).NameKey = "logger" ∧
     (Config.ZapcoreEncoderConfig none).CallerKey = "caller" ∧
     (Config.ZapcoreEncoderConfig none).StacktraceKey = "stacktrace" ∧
     (Config.ZapcoreEncoderConfig none).LineEnding = "\n") ∧
    ((Config.ZapcoreEncoderConfig (some { c with MessageKey := some "" })).MessageKey = "" ∧
     (Config.ZapcoreEncoderConfig (some { c with LineEnding := some "" })).LineEnding = "") ∧
    (Config.ZapcoreEncoderConfig (some { c with MessageKey := v }) =
       { Config.ZapcoreEncoderConfig (some c) with MessageKey := v.getD "msg" } ∧
     Config.ZapcoreEncoderConfig (some { c with LevelKey := v }) =
       { Config.ZapcoreEncoderConfig (some c) with LevelKey := v.getD "level" } ∧
     Config.ZapcoreEncoderConfig (some { c with TimeKey := v }) =
       { Config.ZapcoreEncoderConfig (some c) with TimeKey := v.getD "ts" } ∧
     Config.ZapcoreEncoderConfig (some { c with NameKey := v }) =
       { Config.ZapcoreEncoderConfig (some c) with NameKey := v.getD "logger" } ∧
     Config.ZapcoreEncoderConfig (some { c with CallerKey := v }) =
       { Config.ZapcoreEncoderConfig (some c) with CallerKey := v.getD "caller" } ∧
     Config.ZapcoreEncoderConfig (some { c with StacktraceKey := v }) =
       { Config.ZapcoreEncoderConfig (some c) with StacktraceKey := v.getD "stacktrace" } ∧
     Config.ZapcoreEncoderConfig (some { c with LineEnding := v }) =
       { Config.ZapcoreEncoderConfig (some c) with LineEnding := v.getD "\n" }) := by
  simp [ZapcoreEncoderConfig_some, ZapcoreEncoderConfig_none, Config.zero]

/-- C5: the time formatter chosen for each selector. The empty selector (and a nil `Config`)
gives the closure formatting with layout "15:04:05" in the time value's own zone; the three
unix selectors give the epoch encoders; the six named layouts and every other non-empty
selector except "iso8601" give the closure that converts to UTC and formats, with the fixed
layout for a named one and with the selector itself otherwise. -/
theorem ZapcoreEncoderConfig_time (c : Config) (s : String)
    (hs : s ∉ ["", "unix_seconds_float", "unix_milli_float", "unix_nano", "iso8601", "rfc3339",
      "rfc3339_nano", "wall", "wall_milli", "wall_nano", "common_log"]) :
    (Config.ZapcoreEncoderConfig none).EncodeTime = some (.format "15:04:05") ∧
    (Config.ZapcoreEncoderConfig (some { c with TimeFormat := "" })).EncodeTime
      = some (.format "15:04:05") ∧
    (Config.ZapcoreEncoderConfig (some { c with TimeFormat := "unix_seconds_float" })).EncodeTime
      = some .EpochTimeEncoder ∧
    (Config.ZapcoreEncoderConfig (some { c with TimeFormat := "unix_milli_float" })).EncodeTime
      = some .EpochMillisTimeEncoder ∧
    (Config.ZapcoreEncoderConfig (some { c with TimeFormat := "unix_nano" })).EncodeTime
      = some .EpochNanosTimeEncoder ∧
    (Config.ZapcoreEncoderConfig (some { c with TimeFormat := "rfc3339" })).EncodeTime
      = some (.utcFormat "2006-01-02T15:04:05Z07:00") ∧
    (Config.ZapcoreEncoderConfig (some { c with TimeFormat := "rfc3339_nano" })).EncodeTime
      = some (.utcFormat "2006-01-02T15:04:05.999999999Z07:00") ∧
    (Config.ZapcoreEncoderConfig (some { c with TimeFormat := "wall" })).EncodeTime
      = some (.utcFormat "2006/01/02 15:04:05") ∧
    (Config.ZapcoreEncoderConfig (some { c with TimeFormat := "wall_milli" })).EncodeTime
      = some (.utcFormat "2006/01/02 15:04:05.000") ∧
    (Config.ZapcoreEncoderConfig (some { c with TimeFormat := "wall_nano" })).EncodeTime
      = some (.utcFormat "2006/01/02 15:04:05.000000000") ∧
    (Config.ZapcoreEncoderConfig (some { c with TimeFormat := "common_log" })).EncodeTime
      = some (.utcFormat "02/Jan/2006:15:04:05 -0700") ∧
    (Config.ZapcoreEncoderConfig (some { c with TimeFormat := s })).EncodeTime
      = some (.utcFormat s) := by
  simp only [ZapcoreEncoderConfig_some, ZapcoreEncoderConfig_none]
  simp only [List.mem_cons, List.mem_singleton, List.not_mem_nil, or_false, not_or] at hs
  obtain ⟨h0, h1, h2, h3, h4, h5, h6, h7, h8, h9, h10⟩ := hs
  refine ⟨by decide, by decide, by decide, by decide, by decide, by decide, by decide, by decide,
    by decide, by decide, by decide, ?_⟩
  simp [timeFormatter, timeLayout, h0, h1, h2, h3, h4, h5, h6, h7, h8, h9, h10]

/-- C5 at a custom layout: the selector "Jan 2 15:04" is used as the layout itself, in UTC. -/
theorem ZapcoreEncoderConfig_time_witness :
    (Config.ZapcoreEncoderConfig (some { Config.zero with TimeFormat := "Jan 2 15:04" })).EncodeTime
      = some (.utcFormat "Jan 2 15:04") :=
  (ZapcoreEncoderConfig_time Config.zero "Jan 2 15:04" (by decide)).2.2.2.2.2.2.2.2.2.2.2

/-- C9: the selector tables for duration, level and caller, and that each of the three
resolved formatters is a function of its own selector alone (it equals the one resolved from
the zero `Config` carrying only that selector). -/
theorem ZapcoreEncoderConfig_selectors (c : Config) (s : String) :
    ((Config.ZapcoreEncoderConfig (some { c with DurationFormat := "seconds" })).EncodeDuration
        = some .SecondsDurationEncoder ∧
     (Config.ZapcoreEncoderConfig (some { c with DurationFormat := "nano" })).EncodeDuration
        = some .NanosDurationEncoder ∧
     (Config.ZapcoreEncoderConfig (some { c with DurationFormat := "" })).EncodeDuration
        = some .StringDurationEncoder ∧
     (Config.ZapcoreEncoderConfig (some { c with DurationFormat := "string" })).EncodeDuration
        = some .StringDurationEncoder) ∧
    ((Config.ZapcoreEncoderConfig (some { c with LevelFormat := "lower" })).EncodeLevel
        = some .LowercaseLevelEncoder ∧
     (Config.ZapcoreEncoderConfig (some { c with LevelFormat := "upper" })).EncodeLevel
        = some .CapitalLevelEncoder ∧
     (Config.ZapcoreEncoderConfig (some { c with LevelFormat := "" })).EncodeLevel
        = some .CapitalColorLevelEncoder ∧
     (Config.ZapcoreEncoderConfig (some { c with LevelFormat := "color" })).EncodeLevel
        = some .CapitalColorLevelEncoder) ∧
    ((Config.ZapcoreEncoderConfig (some { c with CallerFormat := "short" })).EncodeCaller
        = some .ShortCallerEncoder ∧
     (Config.ZapcoreEncoderConfig (some { c with CallerFormat := "full" })).EncodeCaller
        = some .FullCallerEncoder) ∧
    ((Config.ZapcoreEncoderConfig (some { c with DurationFormat := s })).EncodeDuration
        = (Config.ZapcoreEncoderConfig
            (some { Config.zero with DurationFormat := s })).EncodeDuration ∧
     (Config.ZapcoreEncoderConfig (some { c with LevelFormat := s })).EncodeLevel
        = (Config.ZapcoreEncoderConfig (some { Config.zero with LevelFormat := s })).EncodeLevel ∧
     (Config.ZapcoreEncoderConfig (some { c with CallerFormat := s })).EncodeCaller
        = (Config.ZapcoreEncoderConfig
            (some { Config.zero with CallerFormat := s })).EncodeCaller) := by
  simp only [ZapcoreEncoderConfig_some]
  refine ⟨⟨?_, ?_, ?_, ?_⟩, ⟨?_, ?_, ?_, ?_⟩, ⟨?_, ?_⟩, ?_⟩
  all_goals decide

/-- C8: `Provision` of a Console and of a JSON encoder returns no error, sets `CallerFormat` to
"short" and "full" respectively and leaves every other `Config` field as it was, stores the
serializer built from `ZapcoreEncoderConfig` of the updated `Config`, whose caller formatter is
the short one for Console and the full one for JSON; a second call changes nothing more. -/
theorem Provision_console_json (e : Console) (j : JSON) :
    ((Console.Provision e).2 = none ∧
     (Console.Provision e).1.Config = { e.Config with CallerFormat := "short" } ∧
     (Console.Provision e).1.Encoder = some (.NewConsoleEncoder
        (Config.ZapcoreEncoderConfig (some { e.Config with CallerFormat := "short" }))) ∧
     (Config.ZapcoreEncoderConfig (some (Console.Provision e).1.Config)).EncodeCaller
        = some .ShortCallerEncoder ∧
     Console.Provision (Console.Provision e).1 = Console.Provision e) ∧
    ((JSON.Provision j).2 = none ∧
     (JSON.Provision j).1.Config = { j.Config with CallerFormat := "full" } ∧
     (JSON.Provision j).1.Encoder = some (.NewJSONEncoder
        (Config.ZapcoreEncoderConfig (some { j.Config with CallerFormat := "full" }))) ∧
     (Config.ZapcoreEncoderConfig (some (JSON.Provision j).1.Config)).EncodeCaller
        = some .FullCallerEncoder ∧
     JSON.Provision (JSON.Provision j).1 = JSON.Provision j) := by
  refine ⟨⟨rfl, rfl, rfl, ?_, rfl⟩, ⟨rfl, rfl, rfl, ?_, rfl⟩⟩
  · simp only [Console.Provision, ZapcoreEncoderConfig_some]
    decide
  · simp only [JSON.Provision, ZapcoreEncoderConfig_some]
    decide

end encoder

/-! ## The ISO-8601 selector -/

namespace time

set_option maxRecDepth 1000000 in
/-- Three-digit fields. -/
theorem appendInt_three (m : Nat) (h : m < 1000) :
    appendInt (Int.ofNat m) 3 =
      String.mk [Nat.digitChar (m / 100), Nat.digitChar (m / 10 % 10), Nat.digitChar (m % 10)] := by
  revert m
  decide

/-- Two-digit fields. -/
theorem appendInt_two (k : Nat) (h : k < 60) :
    appendInt (Int.ofNat k) 2 = String.mk [Nat.digitChar (k / 10), Nat.digitChar (k % 10)] := by
  revert k
  decide

/-- No decimal digit is the letter Z. -/
theorem digitChar_ne_Z (k : Nat) (h : k < 10) : Nat.digitChar k ≠ 'Z' := by
  revert k
  decide

/-- The zone element of a non-zero offset ends in a decimal digit. -/
theorem formatZ0700_last (offset : Int) (h : offset ≠ 0) :
    ∃ pre k, k < 10 ∧ formatZ0700 offset = pre ++ String.mk [Nat.digitChar k] := by
  obtain ⟨z, hzdef⟩ : ∃ z : Int,
      z = (if Int.tdiv offset 60 < 0 then -Int.tdiv offset 60 else Int.tdiv offset 60) := ⟨_, rfl⟩
  have hz : 0 ≤ z := by
    rw [hzdef]
    split_ifs <;> omega
  obtain ⟨k, hk⟩ := Int.eq_ofNat_of_zero_le (Int.tmod_nonneg 60 hz)
  have hk60 : k < 60 := by
    have := Int.tmod_lt_of_pos z (by decide : (0 : Int) < 60)
    omega
  refine ⟨(if Int.tdiv offset 60 < 0 then "-" else "+") ++ appendInt (Int.tdiv z 60) 2
      ++ String.mk [Nat.digitChar (k / 10)], k % 10, Nat.mod_lt _ (by decide), ?_⟩
  simp only [formatZ0700, h, if_false, ← hzdef, hk]
  rw [show ((k : Nat) : Int) = Int.ofNat k from rfl, appendInt_two k hk60]
  apply String.ext
  simp only [String.data_append, List.append_assoc, List.singleton_append]

theorem FormatISO8601_point (t : Time) : '.' ∈ t.FormatISO8601.data := by
  simp [Time.FormatISO8601, String.data_append]

/-- Every rendering ends with the zone element of the offset of the value. -/
theorem FormatISO8601_zone (t : Time) :
    ∃ body, t.FormatISO8601 = body ++ formatZ0700 t.offset ∧
      ({ sec := t.sec + t.offset, nsec := t.nsec, offset := 0 } : Time).FormatISO8601
        = body ++ "Z" := by
  refine ⟨_, rfl, ?_⟩
  simp only [Time.FormatISO8601, add_zero]
  rfl

/-- The rendering of a value with a non-zero offset differs from that of its UTC conversion. -/
theorem FormatISO8601_ne_UTC (t : Time) (h : t.offset ≠ 0) :
    t.FormatISO8601 ≠ t.UTC.FormatISO8601 := by
  obtain ⟨pre, k, hk, hzone⟩ := formatZ0700_last t.offset h
  obtain ⟨a, ha⟩ : ∃ a, t.FormatISO8601 = a ++ formatZ0700 t.offset := ⟨_, rfl⟩
  obtain ⟨b, hb⟩ : ∃ b, t.UTC.FormatISO8601 = b ++ "Z" := ⟨_, rfl⟩
  intro heq
  rw [ha, hzone, hb] at heq
  have hd := congrArg (fun s : String => s.data.getLast?) heq
  simp [String.data_append] at hd
  exact digitChar_ne_Z k hk hd

/-- Every time value whose wall clock in its own zone reads 2024-01-15 h:m:s. -/
theorem FormatISO8601_day (h m s : Nat) (hh : h < 24) (hm : m < 60) (hs : s < 60)
    (n : Nat) (hn : n < 1000000000) (o : Int) :
    ({ sec := 1705276800 + Int.ofNat (h * 3600 + m * 60 + s) - o, nsec := n, offset := o }
        : Time).FormatISO8601 =
      "2024-01-15T" ++ String.mk [Nat.digitChar (h / 10), Nat.digitChar (h % 10)] ++ ":"
        ++ String.mk [Nat.digitChar (m / 10), Nat.digitChar (m % 10)] ++ ":"
        ++ String.mk [Nat.digitChar (s / 10), Nat.digitChar (s % 10)] ++ "."
        ++ String.mk [Nat.digitChar (n / 1000000 / 100), Nat.digitChar (n / 1000000 / 10 % 10),
            Nat.digitChar (n / 1000000 % 10)]
        ++ formatZ0700 o := by
  have habs : 1705276800 + Int.ofNat (h * 3600 + m * 60 + s) - o + o
      = 1705276800 + Int.ofNat (h * 3600 + m * 60 + s) := by omega
  have hday : Int.fdiv (1705276800 + Int.ofNat (h * 3600 + m * 60 + s)) 86400 = 19737 := by
    rw [Int.fdiv_eq_ediv _ (by decide)]
    simp only [Int.ofNat_eq_coe]
    omega
  have hsec : Int.fmod (1705276800 + Int.ofNat (h * 3600 + m * 60 + s)) 86400
      = Int.ofNat (h * 3600 + m * 60 + s) := by
    rw [Int.fmod_eq_emod _ (by decide)]
    simp only [Int.ofNat_eq_coe]
    omega
  have hH : Int.fdiv (Int.ofNat (h * 3600 + m * 60 + s)) 3600 = Int.ofNat h := by
    rw [Int.fdiv_eq_ediv _ (by decide)]
    simp only [Int.ofNat_eq_coe]
    omega
  have hM : Int.fmod (Int.fdiv (Int.ofNat (h * 3600 + m * 60 + s)) 60) 60 = Int.ofNat m := by
    rw [Int.fmod_eq_emod _ (by decide), Int.fdiv_eq_ediv _ (by decide)]
    simp only [Int.ofNat_eq_coe]
    omega
  have hS : Int.fmod (Int.ofNat (h * 3600 + m * 60 + s)) 60 = Int.ofNat s := by
    rw [Int.fmod_eq_emod _ (by decide)]
    simp only [Int.ofNat_eq_coe]
    omega
  have hms : n / 1000000 < 1000 := by omega
  have hdate : appendInt (civil 19737).1 4 ++ "-" ++ appendInt (civil 19737).2.1 2 ++ "-"
      ++ appendInt (civil 19737).2.2 2 ++ "T" = "2024-01-15T" := by decide
  simp only [Time.FormatISO8601, habs, hday, hsec, hH, hM, hS, hdate,
    appendInt_two h (by omega), appendInt_two m hm, appendInt_two s hs,
    appendInt_three _ hms]

end time

namespace encoder

/-- C6 as stated does not hold: the formatter resolved for "iso8601" is zap's ISO-8601
encoder; called on the instant 2024-01-15T10:30:00Z held in UTC it appends
"2024-01-15T10:30:00.000Z", not "2024-01-15T10:30:00Z", and called on the same instant held in
a zone one hour east of UTC it appends a different string, "2024-01-15T11:30:00.000+0100". -/
theorem ZapcoreEncoderConfig_iso8601_not_utc :
    (Config.ZapcoreEncoderConfig (some { Config.zero with TimeFormat := "iso8601" })).EncodeTime
      = some .ISO8601TimeEncoder ∧
    (Config.ZapcoreEncoderConfig (some { Config.zero with TimeFormat := "iso8601" })).EncodeTime.map
        (fun enc => enc.encode { sec := 1705314600, nsec := 0, offset := 0 })
      = some (.String "2024-01-15T10:30:00.000Z") ∧
    (Config.ZapcoreEncoderConfig (some { Config.zero with TimeFormat := "iso8601" })).EncodeTime.map
        (fun enc => enc.encode { sec := 1705314600, nsec := 0, offset := 0 })
      ≠ some (.String "2024-01-15T10:30:00Z") ∧
    (Config.ZapcoreEncoderConfig (some { Config.zero with TimeFormat := "iso8601" })).EncodeTime.map
        (fun enc => enc.encode { sec := 1705314600, nsec := 0, offset := 3600 })
      = some (.String "2024-01-15T11:30:00.000+0100") ∧
    (Config.ZapcoreEncoderConfig (some { Config.zero with TimeFormat := "iso8601" })).EncodeTime.map
        (fun enc => enc.encode { sec := 1705314600, nsec := 0, offset := 3600 })
      ≠ (Config.ZapcoreEncoderConfig
          (some { Config.zero with TimeFormat := "iso8601" })).EncodeTime.map
        (fun enc => enc.encode { sec := 1705314600, nsec := 0, offset := 0 }) := by
  decide

/-- C6, amended: with `TimeFormat` "iso8601" the resolved time formatter, called on any time
value, appends the string of zap's ISO-8601 encoder. That string ends with a point, the three
digits of the milliseconds of the value and the zone element of the value's own offset; what
precedes the zone element is what is rendered for the UTC value whose clock reads the wall
clock of the value; it always contains a point, and for a non-zero offset it differs from the
rendering of the UTC conversion. Every time value whose wall clock in its own zone reads
2024-01-15 h:m:s renders "2024-01-15T", the two-digit hour, minute and second, the point and
milliseconds and the zone element; the instant 2024-01-15T10:30:00Z held as a UTC value
renders "2024-01-15T10:30:00.000Z". -/
theorem ZapcoreEncoderConfig_iso8601 (c : Config) (t : time.Time) (h m s n : Nat) (o : Int) :
    (Config.ZapcoreEncoderConfig (some { c with TimeFormat := "iso8601" })).EncodeTime.map
        (fun enc => enc.encode t)
      = some (.String (zapcore.ISO8601TimeEncoder t)) ∧
    (t.nsec < 1000000000 → ∃ clock, zapcore.ISO8601TimeEncoder t =
      clock ++ "." ++ String.mk [Nat.digitChar (t.nsec / 1000000 / 100),
          Nat.digitChar (t.nsec / 1000000 / 10 % 10), Nat.digitChar (t.nsec / 1000000 % 10)]
        ++ time.formatZ0700 t.offset) ∧
    (∃ body, zapcore.ISO8601TimeEncoder t = body ++ time.formatZ0700 t.offset ∧
      zapcore.ISO8601TimeEncoder { sec := t.sec + t.offset, nsec := t.nsec, offset := 0 }
        = body ++ "Z") ∧
    '.' ∈ (zapcore.ISO8601TimeEncoder t).data ∧
    (t.offset ≠ 0 → zapcore.ISO8601TimeEncoder t ≠ zapcore.ISO8601TimeEncoder t.UTC) ∧
    (h < 24 → m < 60 → s < 60 → n < 1000000000 →
      zapcore.ISO8601TimeEncoder
          { sec := 1705276800 + Int.ofNat (h * 3600 + m * 60 + s) - o, nsec := n, offset := o }
        = "2024-01-15T" ++ String.mk [Nat.digitChar (h / 10), Nat.digitChar (h % 10)] ++ ":"
          ++ String.mk [Nat.digitChar (m / 10), Nat.digitChar (m % 10)] ++ ":"
          ++ String.mk [Nat.digitChar (s / 10), Nat.digitChar (s % 10)] ++ "."
          ++ String.mk [Nat.digitChar (n / 1000000 / 100), Nat.digitChar (n / 1000000 / 10 % 10),
              Nat.digitChar (n / 1000000 % 10)]
          ++ time.formatZ0700 o) ∧
    zapcore.ISO8601TimeEncoder { sec := 1705314600, nsec := 0, offset := 0 }
      = "2024-01-15T10:30:00.000Z" := by
  refine ⟨?_, ?_, time.FormatISO8601_zone t, time.FormatISO8601_point t,
    time.FormatISO8601_ne_UTC t, ?_, by decide⟩
  · simp only [ZapcoreEncoderConfig_some]
    rfl
  · intro hn
    have hms : t.nsec / 1000000 < 1000 := by omega
    obtain ⟨a, ha⟩ : ∃ a, zapcore.ISO8601TimeEncoder t = a ++ "."
        ++ time.appendInt (Int.ofNat (t.nsec / 1000000)) 3 ++ time.formatZ0700 t.offset :=
      ⟨_, rfl⟩
    exact ⟨a, by rw [ha, time.appendInt_three _ hms]⟩
  · intro hh hm hs hn
    exact time.FormatISO8601_day h m s hh hm hs n hn o

/-- C6, amended, at 2024-01-15T10:30:00.123456789Z held one hour east of UTC: the rendering
shows the local clock 11:30:00, the milliseconds 123 and the zone +0100, and differs from the
rendering of the UTC conversion. -/
theorem ZapcoreEncoderConfig_iso8601_witness :
    zapcore.ISO8601TimeEncoder { sec := 1705314600, nsec := 123456789, offset := 3600 }
      = "2024-01-15T11:30:00.123+0100" ∧
    zapcore.ISO8601TimeEncoder { sec := 1705314600, nsec := 123456789, offset := 3600 }
      ≠ zapcore.ISO8601TimeEncoder
          (time.Time.UTC { sec := 1705314600, nsec := 123456789, offset := 3600 }) :=
  have hall := ZapcoreEncoderConfig_iso8601 Config.zero
    { sec := 1705314600, nsec := 123456789, offset := 3600 } 11 30 0 123456789 3600
  ⟨(hall.2.2.2.2.2.1 (by decide) (by decide) (by decide) (by decide)).trans (by decide),
    hall.2.2.2.2.1 (by decide)⟩

end encoder

/-! ## Logger construction, registration and the facade -/

namespace log

/-- C2: for a non-nil `Config`, `New` returns; it returns an error exactly when the encoder or
the output is nil, and then the Logger pointer is nil and the error is
"log: no encoder configured" when the encoder is nil (also when both are) and
"log: no output configured" when only the output is nil; otherwise it returns no error and a
Logger holding the given `Config`, whatever its level. -/
theorem New_spec (c : Config) :
    (c.Encoder = none → New (some c) = .returns (none, some "log: no encoder configured")) ∧
    (c.Encoder ≠ none → c.Output = none →
      New (some c) = .returns (none, some "log: no output configured")) ∧
    (c.Encoder ≠ none → c.Output ≠ none →
      New (some c) = .returns (some { config := some c }, none)) ∧
    ((∃ l err, New (some c) = .returns (l, some err)) ↔ (c.Encoder = none ∨ c.Output = none)) ∧
    (∀ l err, New (some c) = .returns (l, some err) → l = none) := by
  by_cases he : c.Encoder = none <;> by_cases ho : c.Output = none <;>
    simp [New, he, ho]

/-- C2 on a `Config` without encoder, one without output, and a complete one. -/
theorem New_spec_witness :
    New (some { Encoder := none, Level := 7, Output := none })
      = .returns (none, some "log: no encoder configured") ∧
    New (some { Encoder := some (.other 0), Level := 7, Output := none })
      = .returns (none, some "log: no output configured") ∧
    New (some { Encoder := some (.other 0), Level := 7, Output := some .Stderr })
      = .returns (some ⟨some ⟨some (.other 0), 7, some .Stderr⟩⟩, none) :=
  ⟨(New_spec { Encoder := none, Level := 7, Output := none }).1 rfl,
   (New_spec { Encoder := some (.other 0), Level := 7, Output := none }).2.1 (by decide) rfl,
   (New_spec { Encoder := some (.other 0), Level := 7, Output := some .Stderr }).2.2.1
     (by decide) (by decide)⟩

/-- A Logger returned by `New` holds a non-nil `Config`. -/
theorem New_returns_config (c : Option Config) (x : Logger)
    (h : New c = .returns (some x, none)) : ∃ cfg, x.config = some cfg := by
  cases c with
  | none => simp [New] at h
  | some cfg =>
    refine ⟨cfg, ?_⟩
    by_cases he : cfg.Encoder = none <;> by_cases ho : cfg.Output = none <;>
      simp [New, he, ho] at h
    rw [← h]

/-- The zap logger that `Logger.Logger` builds from a `Config`. -/
theorem Logger_Logger_config (l : Logger) (c : Config) (h : l.config = some c) :
    Logger.Logger (some l) = .returns
      (some { core := { enc := c.Encoder, out := c.Output, enab := c.Level, fields := [] }
              addCaller := true
              addStack := zapcore.PanicLevel
              callerSkip := 1 }, none) := by
  simp [Logger.Logger, h, zap.New, zap.Logger.WithOptions, zap.Opt.apply, zapcore.NewCore]

/-- Once `_once` has fired, `Register` leaves the global state as it is, whatever its argument
and however the call ends. -/
theorem Register_after_once (arg : Option Logger) (g : Global) (h : g._once = true) :
    (Register arg g).2 = g := by
  unfold Register
  split <;> simp [h]

/-- Registering a Logger that holds a `Config` returns no error. -/
theorem Register_returns (l : Logger) (c : Config) (h : l.config = some c) (g : Global) :
    (Register (some l) g).1 = .returns none := by
  simp [Register, Logger_Logger_config l c h]

/-- After the first registration, a sequence of registrations of Loggers from `New` returns no
error at any call and leaves the state fixed. -/
theorem registerAll_after_once (ls : List Logger)
    (hnew : ∀ x ∈ ls, ∃ c, New c = .returns (some x, none)) (g : Global) (h : g._once = true) :
    registerAll (ls.map some) g = List.replicate ls.length (.returns none, g) := by
  induction ls with
  | nil => rfl
  | cons x xs ih =>
    obtain ⟨c, hc⟩ := hnew x (List.mem_cons_self x xs)
    obtain ⟨cfg, hcfg⟩ := New_returns_config c x hc
    have h1 : Register (some x) g = (.returns none, g) :=
      Prod.ext (Register_returns x cfg hcfg g) (Register_after_once (some x) g h)
    simp only [List.map_cons, registerAll, List.length_cons, List.replicate_succ, h1]
    rw [ih (fun y hy => hnew y (List.mem_cons_of_mem x hy))]

/-- C1: from the state at process start, for every non-empty sequence of `Register` calls whose
arguments are Loggers returned by `New`, every call returns no error and the state after each
call has `_once` fired and `_logger` the zap logger built from the first Logger (its encoder,
level and output); and once `_once` has fired a call leaves the state unchanged whatever its
argument. -/
theorem Register_first_wins (l : Logger) (ls : List Logger)
    (hnew : ∀ x ∈ l :: ls, ∃ c, New c = .returns (some x, none)) :
    (∃ c z, l.config = some c ∧ Logger.Logger (some l) = .returns (some z, none) ∧
      z.core.enc = c.Encoder ∧ z.core.enab = c.Level ∧ z.core.out = c.Output ∧
      registerAll ((l :: ls).map some) Global.init =
        List.replicate (ls.length + 1)
          (.returns none, { _once := true, _logger := some z, stdLog := some z })) ∧
    (∀ (arg : Option Logger) (g : Global), g._once = true → (Register arg g).2 = g) := by
  refine ⟨?_, Register_after_once⟩
  obtain ⟨c0, hc0⟩ := hnew l (List.mem_cons_self l ls)
  obtain ⟨c, hc⟩ := New_returns_config c0 l hc0
  refine ⟨c, _, hc, Logger_Logger_config l c hc, rfl, rfl, rfl, ?_⟩
  have h1 : Register (some l) Global.init = (.returns none,
      { _once := true
        _logger := some { core := { enc := c.Encoder, out := c.Output, enab := c.Level,
                                    fields := [] }
                          addCaller := true
                          addStack := zapcore.PanicLevel
                          callerSkip := 1 }
        stdLog := some { core := { enc := c.Encoder, out := c.Output, enab := c.Level,
                                   fields := [] }
                         addCaller := true
                         addStack := zapcore.PanicLevel
                         callerSkip := 1 } }) := by
    simp [Register, Logger_Logger_config l c hc, Global.init]
  simp only [List.map_cons, registerAll, List.replicate_succ, h1]
  rw [registerAll_after_once ls (fun y hy => hnew y (List.mem_cons_of_mem l hy)) _ rfl]

/-- C1 on two Loggers with different configurations: both calls return no error and after each
the installed logger is the one built from the first. -/
theorem Register_first_wins_witness :
    registerAll
      [some ⟨some ⟨some (.other 1), 0, some .Stderr⟩⟩, some ⟨some ⟨some (.other 2), 2, some (.other 5)⟩⟩]
      Global.init =
    [(.returns none,
       { _once := true
         _logger := some ⟨⟨some (.other 1), some .Stderr, 0, []⟩, true, 4, 1⟩
         stdLog := some ⟨⟨some (.other 1), some .Stderr, 0, []⟩, true, 4, 1⟩ }),
     (.returns none,
       { _once := true
         _logger := some ⟨⟨some (.other 1), some .Stderr, 0, []⟩, true, 4, 1⟩
         stdLog := some ⟨⟨some (.other 1), some .Stderr, 0, []⟩, true, 4, 1⟩ })] := by
  obtain ⟨⟨c, z, hc, hz, -, -, -, hall⟩, -⟩ := Register_first_wins
    ⟨some ⟨some (.other 1), 0, some .Stderr⟩⟩ [⟨some ⟨some (.other 2), 2, some (.other 5)⟩⟩]
    (by
      intro x hx
      simp only [List.mem_cons, List.mem_singleton, List.not_mem_nil, or_false] at hx
      rcases hx with rfl | rfl
      · exact ⟨some ⟨some (.other 1), 0, some .Stderr⟩, by decide⟩
      · exact ⟨some ⟨some (.other 2), 2, some (.other 5)⟩, by decide⟩)
  have hz2 : z = ⟨⟨some (.other 1), some .Stderr, 0, []⟩, true, 4, 1⟩ := by
    rw [Logger_Logger_config _ _ rfl] at hz
    simp only [Outcome.returns.injEq, Prod.mk.injEq, Option.some.injEq, and_true] at hz
    exact hz.symm
  rw [hz2] at hall
  exact hall

/-- C10: the zap logger built by `Logger.Logger` has caller annotation on, caller skip 1 and
stack traces from `PanicLevel`; for every field list, `With` returns a logger whose accumulated
fields are those of the global logger followed by the given ones and whose caller skip is one
less than the global logger's, and the global state is the same after the call; for the global
logger installed by the first `Register` the child's caller skip is 0. -/
theorem With_child (l : Logger) (c : Config) (hl : l.config = some c)
    (g : Global) (parent : zap.Logger) (hg : g._logger = some parent)
    (fs : List zapcore.Field) :
    (∃ z, Logger.Logger (some l) = .returns (some z, none) ∧
      z.addCaller = true ∧ z.callerSkip = 1 ∧ z.addStack = PanicLevel) ∧
    (∃ child, With fs g = (.returns child, g) ∧
      child.core.fields = parent.core.fields ++ fs ∧
      child.callerSkip = parent.callerSkip - 1 ∧
      child.core.enc = parent.core.enc ∧ child.core.out = parent.core.out ∧
      child.core.enab = parent.core.enab ∧
      child.addCaller = parent.addCaller ∧ child.addStack = parent.addStack) ∧
    (∃ installed child,
      (Register (some l) Global.init).2._logger = some installed ∧
      installed.callerSkip = 1 ∧ installed.core.fields = [] ∧
      With fs (Register (some l) Global.init).2
        = (.returns child, (Register (some l) Global.init).2) ∧
      child.callerSkip = 0 ∧ child.core.fields = fs) := by
  refine ⟨⟨_, Logger_Logger_config l c hl, rfl, rfl, rfl⟩, ?_, ?_⟩
  · by_cases hfs : fs.length = 0
    · have hnil : fs = [] := List.length_eq_zero.mp hfs
      subst hnil
      refine ⟨(parent.WithOptions [.AddCallerSkip (-1)]).With [], by simp only [With, hg], ?_⟩
      simp [zap.Logger.With, zap.Logger.WithOptions, zap.Opt.apply]
      rfl
    · refine ⟨(parent.WithOptions [.AddCallerSkip (-1)]).With fs, by simp only [With, hg], ?_⟩
      simp [zap.Logger.With, zap.Logger.WithOptions, zap.Opt.apply, hfs, zapcore.Core.With]
      rfl
  · by_cases hfs : fs.length = 0
    · have hnil : fs = [] := List.length_eq_zero.mp hfs
      subst hnil
      simp [Register, Logger_Logger_config l c hl, Global.init, With, zap.Logger.With,
        zap.Logger.WithOptions, zap.Opt.apply]
    · simp [Register, Logger_Logger_config l c hl, Global.init, With, zap.Logger.With,
        zap.Logger.WithOptions, zap.Opt.apply, hfs, zapcore.Core.With]

/-- C10 on a registered console-style logger and one field: the child carries the parent field
followed by the new one and skips no frame, the registered logger still skips one. -/
theorem With_child_witness :
    With [⟨"request", "42"⟩]
        { _once := true
          _logger := some ⟨⟨some (.other 1), some .Stderr, 0, [⟨"svc", "api"⟩]⟩, true, 4, 1⟩
          stdLog := none }
      = (.returns ⟨⟨some (.other 1), some .Stderr, 0, [⟨"svc", "api"⟩, ⟨"request", "42"⟩]⟩,
            true, 4, 0⟩,
          { _once := true
            _logger := some ⟨⟨some (.other 1), some .Stderr, 0, [⟨"svc", "api"⟩]⟩, true, 4, 1⟩
            stdLog := none }) := by
  obtain ⟨-, ⟨child, hchild, -⟩, -⟩ := With_child
    ⟨some ⟨some (.other 1), 0, some .Stderr⟩⟩ ⟨some (.other 1), 0, some .Stderr⟩ rfl
    { _once := true
      _logger := some ⟨⟨some (.other 1), some .Stderr, 0, [⟨"svc", "api"⟩]⟩, true, 4, 1⟩
      stdLog := none }
    ⟨⟨some (.other 1), some .Stderr, 0, [⟨"svc", "api"⟩]⟩, true, 4, 1⟩ rfl [⟨"request", "42"⟩]
  have hc : child = ⟨⟨some (.other 1), some .Stderr, 0, [⟨"svc", "api"⟩, ⟨"request", "42"⟩]⟩,
      true, 4, 0⟩ := by
    have h2 := congrArg Prod.fst hchild
    simp only [With, Outcome.returns.injEq] at h2
    rw [← h2]
    decide
  rw [hc] at hchild
  exact hchild

/-- The lookup in `Levels`, key by key. -/
theorem Levels_lookup (s : String) :
    Levels.lookup s =
      if s = "debug" then some DebugLevel
      else if s = "info" then some InfoLevel
      else if s = "warn" then some WarnLevel
      else if s = "error" then some ErrorLevel
      else if s = "panic" then some PanicLevel
      else if s = "fatal" then some FatalLevel
      else none := by
  simp only [Levels, List.lookup]
  by_cases h1 : s = "debug"
  · simp [h1]
  by_cases h2 : s = "info"
  · simp [h2]
  by_cases h3 : s = "warn"
  · simp [h3]
  by_cases h4 : s = "error"
  · simp [h4]
  by_cases h5 : s = "panic"
  · simp [h5]
  by_cases h6 : s = "fatal"
  · simp [h6]
  simp only [beq_eq_false_iff_ne.mpr h1, beq_eq_false_iff_ne.mpr h2, beq_eq_false_iff_ne.mpr h3,
    beq_eq_false_iff_ne.mpr h4, beq_eq_false_iff_ne.mpr h5, beq_eq_false_iff_ne.mpr h6,
    h1, h2, h3, h4, h5, h6, if_false]

/-- A key outside the six names is absent from `Levels`, and a key among them is present. -/
theorem Levels_lookup_none (s : String) :
    Levels.lookup s = none ↔ s ∉ ["debug", "info", "warn", "error", "panic", "fatal"] := by
  rw [Levels_lookup]
  simp only [List.mem_cons, List.mem_singleton, List.not_mem_nil, or_false, not_or]
  split_ifs <;> simp_all

/-- The encoder switch allocates nothing exactly outside the three names. -/
theorem newEncoder_none (s : String) :
    newEncoder s = none ↔ s ∉ ["console", "json", "logfmt"] := by
  simp only [newEncoder, List.mem_cons, List.mem_singleton, List.not_mem_nil, or_false, not_or]
  split_ifs <;> simp_all

/-- The run of `RegisterFromFlags` past both checks. -/
theorem RegisterFromFlags_ok (f : Flags) (g : Global) (level : Level) (e : encoder.Encoder)
    (hl : Levels.lookup f.Level = some level) (he : newEncoder f.Encoder = some e) :
    RegisterFromFlags f g =
      { result := .returns (some .Sync, none)
        e := some e.Provision.1
        l := some { config := some { Encoder := some (.variant e.Provision.1), Level := level,
                                     Output := some .Stderr } }
        registered := [some { config := some { Encoder := some (.variant e.Provision.1),
                                               Level := level, Output := some .Stderr } }]
        global := (Register (some { config := some { Encoder := some (.variant e.Provision.1),
                                                     Level := level,
                                                     Output := some .Stderr } }) g).2 } := by
  have hp : e.Provision = (e.Provision.1, none) := by
    cases e <;> rfl
  unfold RegisterFromFlags
  simp only [hl, he]
  rw [hp]
  simp [New, Register, Logger.Logger]

/-- The run of `RegisterFromFlags` on an unknown level name. -/
theorem RegisterFromFlags_level (f : Flags) (g : Global) (hl : Levels.lookup f.Level = none) :
    RegisterFromFlags f g =
      { result := .returns (none, some ("log: unknown log level: \"" ++ f.Level ++ "\""))
        e := none, l := none, registered := [], global := g } := by
  have hq : "log: unknown log level: " ++ "\"" = "log: unknown log level: \"" := by decide
  unfold RegisterFromFlags
  simp only [hl, fmt.Errorf, hq]

/-- The run of `RegisterFromFlags` on a known level name and an unknown encoder name. -/
theorem RegisterFromFlags_encoder (f : Flags) (g : Global) (level : Level)
    (hl : Levels.lookup f.Level = some level) (he : newEncoder f.Encoder = none) :
    RegisterFromFlags f g =
      { result := .returns (none, some ("log: unknown log encoder: \"" ++ f.Encoder ++ "\""))
        e := none, l := none, registered := [], global := g } := by
  have hq : "log: unknown log encoder: " ++ "\"" = "log: unknown log encoder: \"" := by decide
  unfold RegisterFromFlags
  simp only [hl, he, fmt.Errorf, hq]

/-- The variant allocated by the encoder switch is the one named. -/
theorem newEncoder_variant (s : String) (e : encoder.Encoder) (h : newEncoder s = some e) :
    (s = "console" → ∃ x, e.Provision.1 = .Console x) ∧
    (s = "json" → ∃ x, e.Provision.1 = .JSON x) ∧
    (s = "logfmt" → ∃ x, e.Provision.1 = .Logfmt x) := by
  refine ⟨?_, ?_, ?_⟩ <;> intro hs <;> subst hs <;>
    simp only [newEncoder, String.reduceEq, if_true, if_false, Option.some.injEq] at h <;>
    subst h <;> exact ⟨_, rfl⟩

/-- C7: `RegisterFromFlags` returns an error exactly when the level is not a key of `Levels` or
the encoder is not one of console, json, logfmt. The level is checked first; the error text
quotes the offending value; on either failure the global state is unchanged, the locals `e` and
`l` are still nil and `Register` has not been called. The zero-value `Flags` is rejected on its
level. Otherwise the call returns `Sync` and no error, having called `Register` once with the
Logger whose level is `Levels[f.Level]`, whose output is standard error and whose encoder is the
provisioned variant named by `f.Encoder`. -/
theorem RegisterFromFlags_spec (f : Flags) (g : Global) :
    ((∃ r err, (RegisterFromFlags f g).result = .returns (r, some err)) ↔
      (f.Level ∉ ["debug", "info", "warn", "error", "panic", "fatal"] ∨
        f.Encoder ∉ ["console", "json", "logfmt"])) ∧
    (f.Level ∉ ["debug", "info", "warn", "error", "panic", "fatal"] →
      RegisterFromFlags f g =
        { result := .returns (none, some ("log: unknown log level: \"" ++ f.Level ++ "\""))
          e := none, l := none, registered := [], global := g }) ∧
    (f.Level ∈ ["debug", "info", "warn", "error", "panic", "fatal"] →
      f.Encoder ∉ ["console", "json", "logfmt"] →
      RegisterFromFlags f g =
        { result := .returns (none, some ("log: unknown log encoder: \"" ++ f.Encoder ++ "\""))
          e := none, l := none, registered := [], global := g }) ∧
    (RegisterFromFlags { Encoder := "", Level := "" } g).result
      = .returns (none, some "log: unknown log level: \"\"") ∧
    (f.Level ∈ ["debug", "info", "warn", "error", "panic", "fatal"] →
      f.Encoder ∈ ["console", "json", "logfmt"] →
      ∃ level e, Levels.lookup f.Level = some level ∧
        (f.Encoder = "console" → ∃ x, e = .Console x) ∧
        (f.Encoder = "json" → ∃ x, e = .JSON x) ∧
        (f.Encoder = "logfmt" → ∃ x, e = .Logfmt x) ∧
        RegisterFromFlags f g =
          { result := .returns (some .Sync, none)
            e := some e
            l := some ⟨some ⟨some (.variant e), level, some .Stderr⟩⟩
            registered := [some ⟨some ⟨some (.variant e), level, some .Stderr⟩⟩]
            global := (Register (some ⟨some ⟨some (.variant e), level, some .Stderr⟩⟩) g).2 }) := by
  have hlevel := RegisterFromFlags_level f g
  have hok : f.Level ∈ ["debug", "info", "warn", "error", "panic", "fatal"] →
      ∃ level, Levels.lookup f.Level = some level := by
    intro h
    have hne : Levels.lookup f.Level ≠ none := fun hn => (Levels_lookup_none f.Level).mp hn h
    exact ⟨_, (Option.some_get (Option.ne_none_iff_isSome.mp hne)).symm⟩
  have heok : f.Encoder ∈ ["console", "json", "logfmt"] → ∃ e, newEncoder f.Encoder = some e := by
    intro h
    have hne : newEncoder f.Encoder ≠ none := fun hn => (newEncoder_none f.Encoder).mp hn h
    exact ⟨_, (Option.some_get (Option.ne_none_iff_isSome.mp hne)).symm⟩
  refine ⟨?_, ?_, ?_, ?_, ?_⟩
  · by_cases hL : f.Level ∈ ["debug", "info", "warn", "error", "panic", "fatal"]
    · obtain ⟨level, hl⟩ := hok hL
      by_cases hE : f.Encoder ∈ ["console", "json", "logfmt"]
      · obtain ⟨e, he⟩ := heok hE
        rw [RegisterFromFlags_ok f g level e hl he]
        simp [hL, hE]
      · rw [RegisterFromFlags_encoder f g level hl ((newEncoder_none _).mpr hE)]
        simp [hE]
    · rw [hlevel ((Levels_lookup_none _).mpr hL)]
      simp [hL]
  · intro hL
    exact hlevel ((Levels_lookup_none _).mpr hL)
  · intro hL hE
    obtain ⟨level, hl⟩ := hok hL
    exact RegisterFromFlags_encoder f g level hl ((newEncoder_none _).mpr hE)
  · have hq : "log: unknown log level: \"" ++ "" ++ "\"" = "log: unknown log level: \"\"" := by
      decide
    rw [RegisterFromFlags_level _ g (by decide)]
    simp only [hq]
  · intro hL hE
    obtain ⟨level, hl⟩ := hok hL
    obtain ⟨e, he⟩ := heok hE
    obtain ⟨h1, h2, h3⟩ := newEncoder_variant f.Encoder e he
    exact ⟨level, e.Provision.1, hl, h1, h2, h3, RegisterFromFlags_ok f g level e hl he⟩

/-- C7 on the flags (json, warn) at process start: the call returns `Sync`, and the one
registered Logger has level `WarnLevel`, output standard error and the provisioned JSON
encoder. -/
theorem RegisterFromFlags_spec_witness :
    RegisterFromFlags { Encoder := "json", Level := "warn" } Global.init =
      { result := .returns (some .Sync, none)
        e := some (.JSON (encoder.JSON.Provision ⟨encoder.Config.zero, none⟩).1)
        l := some ⟨some ⟨some (.variant (.JSON (encoder.JSON.Provision
                ⟨encoder.Config.zero, none⟩).1)), WarnLevel, some .Stderr⟩⟩
        registered := [some ⟨some ⟨some (.variant (.JSON (encoder.JSON.Provision
                ⟨encoder.Config.zero, none⟩).1)), WarnLevel, some .Stderr⟩⟩]
        global := (Register (some ⟨some ⟨some (.variant (.JSON (encoder.JSON.Provision
                ⟨encoder.Config.zero, none⟩).1)), WarnLevel, some .Stderr⟩⟩) Global.init).2 } := by
  obtain ⟨level, e, hl, -, -, -, hrun⟩ :=
    (RegisterFromFlags_spec { Encoder := "json", Level := "warn" } Global.init).2.2.2.2
      (by decide) (by decide)
  have hw : level = WarnLevel := by
    have h2 : Levels.lookup "warn" = some WarnLevel := by decide
    exact Option.some.inj (hl.symm.trans h2)
  have he : e = .JSON (encoder.JSON.Provision ⟨encoder.Config.zero, none⟩).1 := by
    have h3 : (RegisterFromFlags { Encoder := "json", Level := "warn" } Global.init).e
        = some (.JSON (encoder.JSON.Provision ⟨encoder.Config.zero, none⟩).1) := by decide
    rw [hrun] at h3
    exact Option.some.inj h3
  rw [hw, he] at hrun
  exact hrun

end log
